import Mathlib

/-!
Shallow embedding of the forge-armory MCP gateway core
(`src/forge_armory/{db,gateway}/…`, `src/forge_armory/server.py`,
`src/forge_armory/admin/routes.py`) and proofs about its routing,
metrics and dispatch behaviour.

Conventions of the embedding:
* JSON-ish Python values (request bodies, tool arguments, results and
  input schemas) are modelled by the inductive `JVal`.
* Database tables are modelled as in-memory lists of rows; SQL
  `SELECT ... WHERE` becomes `List.filter`/`List.find?` and
  `ORDER BY` becomes `List.mergeSort` on the ordering key.
* Machine time is passed explicitly: `call_tool` receives the elapsed
  milliseconds measured by the monotonic clock (`time.perf_counter`
  guarantees a non-negative difference, hence a `Nat`), and
  `parse_time_period` receives "now" as minutes on an integer timeline.
* Fallible Python code returns `Except PyExc`; Python's `finally`
  semantics (an exception raised inside `finally` replaces the
  in-flight result or exception) is made explicit in `call_tool`.
* Python floats produced by `/` on counts and latencies are modelled
  exactly as rationals (`ℚ`); every division appearing in the claims
  (`3/4 = 0.75`) is exactly representable, so no rounding is lost.
-/

/-- JSON-like Python value: the payloads moving through the gateway
(request bodies, params, tool arguments, tool results, input schemas). -/
inductive JVal where
  | null : JVal
  | bool : Bool → JVal
  | num : Int → JVal
  | str : String → JVal
  | arr : List JVal → JVal
  | obj : List (String × JVal) → JVal

/-- `str(x)` for the `JVal` fragment we need in f-strings.  Scalars follow
Python's `str`; for containers only the bracketed shape matters to the
claims (no claim inspects the text of a stringified container). -/
def pyStr : JVal → String
  | .null => "None"
  | .bool true => "True"
  | .bool false => "False"
  | .num n => toString n
  | .str s => s
  | .arr _ => "[...]"
  | .obj _ => "{...}"

/-- Python `==` between a value and a string: `True` exactly on an equal
string — a non-string compared to a string is simply unequal. -/
def JVal.eqStr (v : JVal) (s : String) : Bool :=
  match v with
  | .str t => t == s
  | _ => false

/-- `d.get(key, default)` on a decoded JSON object's field list
(first binding wins, as in a Python dict built from unique keys). -/
def dictGetD (fields : List (String × JVal)) (key : String) (dflt : JVal) : JVal :=
  match fields.find? (fun kv => kv.1 == key) with
  | some kv => kv.2
  | none => dflt

/-- Python `str.endswith(suffix)`. -/
def pyEndsWith (s suffix : String) : Bool :=
  suffix.data.isSuffixOf s.data

/-- Python `int(s)` restricted to the shapes the period parser can meet:
an optional leading minus sign followed by decimal digits; anything else
raises `ValueError`.  (Python's full grammar also strips whitespace and
underscores; no caller in this codebase produces those.) -/
def pyInt (s : String) : Except String Int :=
  let core := fun (ds : List Char) =>
    if ds ≠ [] ∧ ds.all Char.isDigit then
      Except.ok (Int.ofNat (ds.foldl (fun acc c => 10 * acc + (c.toNat - 48)) 0))
    else
      Except.error ("ValueError: invalid literal for int() with base 10: " ++ s)
  match s.data with
  | '-' :: rest => (core rest).map (fun n => -n)
  | ds => core ds

/-- Python exceptions that can cross the layers of the gateway core. -/
inductive PyExc where
  /-- `forge_armory.gateway.exceptions.ToolNotFoundError` -/
  | toolNotFound : String → PyExc
  /-- `forge_armory.gateway.exceptions.BackendNotFoundError` -/
  | backendNotFound : String → PyExc
  /-- `forge_armory.gateway.exceptions.ToolCallError` -/
  | toolCallError : String → PyExc
  /-- builtin `TypeError` (e.g. an invalid keyword argument) -/
  | typeError : String → PyExc
  /-- builtin `ValueError` -/
  | valueError : String → PyExc
  /-- builtin `AttributeError` (e.g. `.get` on a non-dict) -/
  | attributeError : String → PyExc
  /-- any other exception, carrying `str(e)` -/
  | other : String → PyExc
  deriving BEq, DecidableEq, Repr

/-- `str(e)` of an exception: the message it was constructed with. -/
def PyExc.message : PyExc → String
  | .toolNotFound m => m
  | .backendNotFound m => m
  | .toolCallError m => m
  | .typeError m => m
  | .valueError m => m
  | .attributeError m => m
  | .other m => m

-- ============================================================================
-- db/models.py
-- ============================================================================

/-- Row of the `backends` table (`db/models.py`, class `Backend`).
`id` stands in for the UUID primary key; `pfx` is the model's nullable
`prefix` column. -/
structure Backend where
  id : Nat
  name : String
  url : Option String := none
  enabled : Bool := true
  timeout : Int := 30
  pfx : Option String := none
  mount_enabled : Bool := true
  deriving BEq, DecidableEq, Repr

/-- `Backend.effective_prefix` (`db/models.py`):
`self.prefix if self.prefix else self.name` — Python truthiness, so both
`None` and the empty string fall back to the backend name. -/
def Backend.effectivePfx (b : Backend) : String :=
  match b.pfx with
  | some p => if p = "" then b.name else p
  | none => b.name

/-- Row of the `tools` table (`db/models.py`, class `Tool`). -/
structure Tool where
  id : Nat
  backend_id : Nat
  name : String
  prefixed_name : String
  description : Option String := none
  input_schema : JVal := .obj []
  refreshed_at : Int := 0

/-- Row of the `tool_calls` table (`db/models.py`, class `ToolCall`).
NOTE: faithfully to `models.py`, this row type has **no**
`client_ip` / `request_id` / `session_id` / `caller` columns — the
initial-schema migration adds such columns to the database, but the ORM
model does not declare them. -/
structure ToolCall where
  tool_id : Option Nat := none
  backend_name : String
  tool_name : String
  arguments : JVal
  success : Bool
  error_message : Option String := none
  latency_ms : Int
  called_at : Int := 0

/-- The attribute names declared on the `ToolCall` ORM class in
`db/models.py` (mapped columns plus the `tool` relationship), i.e. the
keyword arguments its SQLAlchemy declarative constructor accepts. -/
def toolCallModelFields : List String :=
  ["id", "tool_id", "backend_name", "tool_name", "arguments", "success",
   "error_message", "latency_ms", "called_at", "tool"]

-- ============================================================================
-- db/repository.py — schemas and ToolCallRepository
-- ============================================================================

/-- `ToolCallCreate` pydantic schema (`db/repository.py`). -/
structure ToolCallCreate where
  backend_name : String
  tool_name : String
  arguments : JVal
  success : Bool
  error_message : Option String := none
  latency_ms : Int
  client_ip : Option String := none
  request_id : Option String := none
  session_id : Option String := none
  caller : Option String := none

/-- The keyword arguments `ToolCallRepository.create` passes to the
`ToolCall(...)` constructor (`db/repository.py` lines 240-252). -/
def toolCallCreateKwargs : List String :=
  ["tool_id", "backend_name", "tool_name", "arguments", "success",
   "error_message", "latency_ms", "client_ip", "request_id", "session_id",
   "caller"]

/-- `ToolCallRepository.create` (`db/repository.py`).  SQLAlchemy's
declarative constructor raises
`TypeError: 'k' is an invalid keyword argument for ToolCall` at the first
keyword argument that is not a declared attribute of the model class; only
if all keywords are declared does it build the row. -/
def toolCallRepositoryCreate (data : ToolCallCreate) (tool_id : Option Nat)
    (now : Int) : Except PyExc ToolCall :=
  match toolCallCreateKwargs.find? (fun k => !(toolCallModelFields.contains k)) with
  | some k =>
      .error (.typeError ("'" ++ k ++ "' is an invalid keyword argument for ToolCall"))
  | none =>
      .ok { tool_id := tool_id
            backend_name := data.backend_name
            tool_name := data.tool_name
            arguments := data.arguments
            success := data.success
            error_message := data.error_message
            latency_ms := data.latency_ms
            called_at := now }

/-- Aggregate returned by `ToolCallRepository.get_stats`
(`db/repository.py`): the dict's numeric values, with Python floats
modelled exactly as rationals. -/
structure Stats where
  total_calls : Nat
  success_count : Nat
  error_count : Nat
  success_rate : ℚ
  avg_latency_ms : ℚ
  min_latency_ms : Int
  max_latency_ms : Int
  deriving BEq, DecidableEq, Repr

/-- `min(latencies) if latencies else 0`. -/
def listMinD (l : List Int) : Int :=
  match l with
  | [] => 0
  | x :: xs => xs.foldl min x

/-- `max(latencies) if latencies else 0`. -/
def listMaxD (l : List Int) : Int :=
  match l with
  | [] => 0
  | x :: xs => xs.foldl max x

/-- `ToolCallRepository.get_stats` (`db/repository.py` lines 274-313),
applied to the filtered row set `calls` (the SQL filters backend/time;
the claim quantifies over the filter's output). -/
def get_stats (calls : List ToolCall) : Stats :=
  if calls.isEmpty then
    { total_calls := 0, success_count := 0, error_count := 0,
      success_rate := 0, avg_latency_ms := 0,
      min_latency_ms := 0, max_latency_ms := 0 }
  else
    let success_count := (calls.filter (fun c => c.success)).length
    let latencies := calls.map (fun c => c.latency_ms)
    { total_calls := calls.length
      success_count := success_count
      error_count := calls.length - success_count
      success_rate := (success_count : ℚ) / (calls.length : ℚ)
      avg_latency_ms := ((latencies.foldl (· + ·) 0 : Int) : ℚ) / (latencies.length : ℚ)
      min_latency_ms := listMinD latencies
      max_latency_ms := listMaxD latencies }

/-- `_percentile` (`db/repository.py` lines 530-535).  Python computes
`int(len(sorted_values) * percentile / 100)`: true (float) division then
truncation, which for the non-negative integers in range equals floor
division, i.e. `Nat` division here. -/
def percentileOf (sorted_values : List Int) (percentile : Nat) : Option Int :=
  if sorted_values.isEmpty then
    none
  else
    let index := sorted_values.length * percentile / 100
    some (sorted_values.getD (min index (sorted_values.length - 1)) 0)

/-- `parse_time_period` (`db/repository.py` lines 551-571).  Time is an
integer count of minutes; `now - timedelta(hours = n)` becomes
`now - 60 * n`, and `int(...)` failures surface as `ValueError`. -/
def parse_time_period (now : Int) (period : String) : Except String (Option Int) :=
  if period = "all" ∨ period = "" then
    .ok none
  else if pyEndsWith period "h" then
    (pyInt (String.mk (period.data.dropLast))).map (fun n => some (now - 60 * n))
  else if pyEndsWith period "d" then
    (pyInt (String.mk (period.data.dropLast))).map (fun n => some (now - 24 * 60 * n))
  else if pyEndsWith period "m" then
    (pyInt (String.mk (period.data.dropLast))).map (fun n => some (now - n))
  else
    .ok none

-- ============================================================================
-- admin/routes.py — auto-granularity selection in get_timeseries
-- ============================================================================

/-- The granularity actually used by `get_timeseries`
(`admin/routes.py` lines 559-586): the query value when supplied and
truthy, otherwise auto-selected by exact membership of the period token
in `("1h", "2h")` or `("24h", "7d")`. -/
def autoGranularity (granularity : Option String) (period : String) : String :=
  match granularity with
  | some g =>
      if g = "" then
        if period = "1h" ∨ period = "2h" then "minute"
        else if period = "24h" ∨ period = "7d" then "hour"
        else "day"
      else g
  | none =>
      if period = "1h" ∨ period = "2h" then "minute"
      else if period = "24h" ∨ period = "7d" then "hour"
      else "day"

-- ============================================================================
-- gateway/manager.py and gateway/connection.py
-- ============================================================================

/-- `RequestContext` dataclass (`gateway/manager.py`). -/
structure RequestContext where
  client_ip : Option String := none
  request_id : Option String := none
  session_id : Option String := none
  caller : Option String := none
  deriving BEq, DecidableEq, Repr

/-- A live `BackendConnection` (`gateway/connection.py`) as seen by the
router: the observable behaviour of `conn.call_tool(name, arguments)` —
either the raw upstream result or an exception carrying `str(e)`. -/
structure BackendConnection where
  call : String → JVal → Except String JVal

/-- `ToolInfo` pydantic schema (`db/repository.py`): one tool as reported
by the upstream server. -/
structure ToolInfo where
  name : String
  description : Option String := none
  input_schema : JVal := .obj []

/-- The state a `BackendManager` plus its database sees: the `backends`,
`tools` and `tool_calls` tables and the in-memory `_connections` dict
(keyed by backend name). -/
structure GatewayState where
  backends : List Backend
  tools : List Tool
  connections : List (String × BackendConnection)
  tool_calls : List ToolCall

/-- Key ordering used by `ORDER BY` on string columns. -/
def strLe (a b : String) : Bool :=
  decide (a ≤ b)

/-- `BackendRepository.list_all` (`db/repository.py`): all backends,
optionally only enabled ones, ordered by name. -/
def backendListAll (st : GatewayState) (enabled_only : Bool) : List Backend :=
  let rows := if enabled_only then st.backends.filter (fun b => b.enabled) else st.backends
  rows.mergeSort (fun a b => strLe a.name b.name)

/-- `BackendRepository.get_by_id`. -/
def backendGetById (st : GatewayState) (backend_id : Nat) : Option Backend :=
  st.backends.find? (fun b => b.id == backend_id)

/-- `ToolRepository.list_all`: all tools ordered by prefixed name. -/
def toolListAll (st : GatewayState) : List Tool :=
  st.tools.mergeSort (fun a b => strLe a.prefixed_name b.prefixed_name)

/-- `ToolRepository.list_by_backend`: a backend's tools ordered by name. -/
def toolListByBackend (st : GatewayState) (backend_id : Nat) : List Tool :=
  (st.tools.filter (fun t => t.backend_id == backend_id)).mergeSort
    (fun a b => strLe a.name b.name)

/-- `ToolRepository.get_by_prefixed_name`: the SQL equality
`Tool.prefixed_name == prefixed_name` compares the string column with
whatever value the caller passed, so a non-string never matches. -/
def toolGetByPrefixedName (st : GatewayState) (prefixed_name : JVal) : Option Tool :=
  st.tools.find? (fun t => prefixed_name.eqStr t.prefixed_name)

/-- The rows `ToolRepository.refresh_backend_tools` inserts for `backend`:
one per upstream-reported tool, named `{effective_prefix}__{name}`,
with fresh ids `freshId`, `freshId + 1`, …. -/
def refreshedTools (backend : Backend) (tools : List ToolInfo) (now : Int)
    (freshId : Nat) : List Tool :=
  match tools with
  | [] => []
  | info :: rest =>
      { id := freshId
        backend_id := backend.id
        name := info.name
        prefixed_name := backend.effectivePfx ++ "__" ++ info.name
        description := info.description
        input_schema := info.input_schema
        refreshed_at := now } :: refreshedTools backend rest now (freshId + 1)

/-- `ToolRepository.refresh_backend_tools` (`db/repository.py` lines
195-224): delete every tool row of the backend, then insert one row per
upstream-reported tool. -/
def refresh_backend_tools (st : GatewayState) (backend : Backend)
    (tools : List ToolInfo) (now : Int) (freshId : Nat) : GatewayState :=
  { st with tools :=
      st.tools.filter (fun t => !(t.backend_id == backend.id)) ++
        refreshedTools backend tools now freshId }

/-- `self._connections[name]` lookup in the manager's connection dict. -/
def lookupConnection (st : GatewayState) (name : String) : Option BackendConnection :=
  (st.connections.find? (fun c => c.1 == name)).map (fun c => c.2)

/-- `BackendManager.call_tool` (`gateway/manager.py` lines 166-252).

`elapsed_ms` is `int((time.perf_counter() - start_time) * 1000)` — the
monotonic clock makes it non-negative, hence a `Nat`; `now` is the wall
time stamped on the record.  The `try/except/finally` is made explicit:
the record is created in the `finally` block whether the upstream call
succeeded or raised, and an exception raised by the record creation
itself replaces the in-flight result or exception (Python `finally`
semantics). -/
def call_tool (st : GatewayState) (prefixed_name : JVal) (arguments : JVal)
    (context : Option RequestContext) (elapsed_ms : Nat) (now : Int) :
    Except PyExc JVal × GatewayState :=
  match toolGetByPrefixedName st prefixed_name with
  | none =>
      (.error (.toolNotFound ("Tool " ++ pyStr prefixed_name ++ " not found")), st)
  | some tool =>
    match backendGetById st tool.backend_id with
    | none =>
        (.error (.backendNotFound
          ("Backend for tool " ++ pyStr prefixed_name ++ " not found")), st)
    | some backend =>
      match lookupConnection st backend.name with
      | none =>
          (.error (.backendNotFound ("Backend " ++ backend.name ++ " not connected")), st)
      | some conn =>
        let callResult := conn.call tool.name arguments
        let data : ToolCallCreate :=
          { backend_name := backend.name
            tool_name := tool.name
            arguments := arguments
            success := match callResult with | .ok _ => true | .error _ => false
            error_message := match callResult with | .ok _ => none | .error e => some e
            latency_ms := (elapsed_ms : Int)
            client_ip := context.bind (fun c => c.client_ip)
            request_id := context.bind (fun c => c.request_id)
            session_id := context.bind (fun c => c.session_id)
            caller := context.bind (fun c => c.caller) }
        match toolCallRepositoryCreate data (some tool.id) now with
        | .error exc => (.error exc, st)
        | .ok row =>
          let st' := { st with tool_calls := st.tool_calls ++ [row] }
          match callResult with
          | .ok r => (.ok r, st')
          | .error e => (.error (.toolCallError ("Tool call failed: " ++ e)), st')

-- ============================================================================
-- server.py — MCPGateway
-- ============================================================================

/-- Python type name of a value, as it appears in an `AttributeError`. -/
def pyTypeName : JVal → String
  | .null => "NoneType"
  | .bool _ => "bool"
  | .num _ => "int"
  | .str _ => "str"
  | .arr _ => "list"
  | .obj _ => "dict"

/-- `tool.description or ""`. -/
def pyOrEmpty (o : Option String) : String :=
  match o with
  | some s => s
  | none => ""

/-- `MCPGateway._format_tool_result` (`server.py` lines 223-234). -/
def formatToolResult (result : JVal) : JVal :=
  match result with
  | .obj fs =>
      .obj [("content", .arr [.obj [("type", .str "text"),
        ("text", .str (pyStr (JVal.obj fs)))]])]
  | .arr items => .obj [("content", .arr items)]
  | .str s =>
      .obj [("content", .arr [.obj [("type", .str "text"), ("text", .str s)]])]
  | other =>
      .obj [("content", .arr [.obj [("type", .str "text"),
        ("text", .str (pyStr other))]])]

/-- `MCPGateway._handle_initialize` (`server.py`): static metadata. -/
def handleInitialize : JVal :=
  .obj [("protocolVersion", .str "2024-11-05"),
        ("capabilities", .obj [("tools", .obj [("listChanged", .bool true)])]),
        ("serverInfo", .obj [("name", .str "forge-armory"),
                             ("version", .str "0.1.0")])]

/-- `MCPGateway._handle_list_tools` (`server.py`): every tool in the
catalog, advertised under its prefixed name. -/
def handleListTools (st : GatewayState) : JVal :=
  .obj [("tools", .arr ((toolListAll st).map (fun t =>
    .obj [("name", .str t.prefixed_name),
          ("description", .str (pyOrEmpty t.description)),
          ("inputSchema", t.input_schema)])))]

/-- `MCPGateway._handle_list_tools_for_mount` (`server.py` lines
171-198): first enabled, mount-enabled backend (in name order) whose
effective prefix matches; empty tool list when none does. -/
def handleListToolsForMount (st : GatewayState) (pfx : String) : JVal :=
  let backends := backendListAll st true
  match backends.find? (fun b => b.effectivePfx == pfx && b.mount_enabled) with
  | none => .obj [("tools", .arr [])]
  | some b =>
      .obj [("tools", .arr ((toolListByBackend st b.id).map (fun t =>
        .obj [("name", .str t.name),
              ("description", .str (pyOrEmpty t.description)),
              ("inputSchema", t.input_schema)])))]

/-- `MCPGateway._handle_call_tool` (`server.py` lines 200-208).
`params.get` on a non-dict raises `AttributeError` (caught by the
dispatcher's `try`). -/
def handleCallTool (st : GatewayState) (params : JVal) (elapsed_ms : Nat)
    (now : Int) : Except PyExc JVal × GatewayState :=
  match params with
  | .obj flds =>
      let r := call_tool st (dictGetD flds "name" (.str ""))
        (dictGetD flds "arguments" (.obj [])) none elapsed_ms now
      (r.1.map formatToolResult, r.2)
  | other =>
      (.error (.attributeError
        ("'" ++ pyTypeName other ++ "' object has no attribute 'get'")), st)

/-- `MCPGateway._handle_call_tool_for_mount` (`server.py` lines 210-221):
re-prefix the bare name with the mount's prefix and route through the
same `call_tool`. -/
def handleCallToolForMount (st : GatewayState) (pfx : String) (params : JVal)
    (elapsed_ms : Nat) (now : Int) : Except PyExc JVal × GatewayState :=
  match params with
  | .obj flds =>
      let r := call_tool st
        (.str (pfx ++ "__" ++ pyStr (dictGetD flds "name" (.str ""))))
        (dictGetD flds "arguments" (.obj [])) none elapsed_ms now
      (r.1.map formatToolResult, r.2)
  | other =>
      (.error (.attributeError
        ("'" ++ pyTypeName other ++ "' object has no attribute 'get'")), st)

/-- The wire envelope `{"jsonrpc": "2.0", "result": result, "id": id}`. -/
def jsonRpcResult (rid result : JVal) : JVal :=
  .obj [("jsonrpc", .str "2.0"), ("result", result), ("id", rid)]

/-- The wire envelope
`{"jsonrpc": "2.0", "error": {"code": c, "message": m}, "id": id}`. -/
def jsonRpcError (rid : JVal) (code : Int) (message : String) : JVal :=
  .obj [("jsonrpc", .str "2.0"),
        ("error", .obj [("code", .num code), ("message", .str message)]),
        ("id", rid)]

/-- What an HTTP POST to the dispatcher produces: a `JSONResponse` with a
status code, or an exception escaping the handler uncaught. -/
inductive DispatchOutcome where
  | resp : Nat → JVal → DispatchOutcome
  | uncaught : PyExc → DispatchOutcome

/-- The `method` strings the dispatcher's `if/elif` chain recognises. -/
def knownMethod (method : JVal) : Bool :=
  method.eqStr "initialize" || method.eqStr "tools/list" ||
    method.eqStr "tools/call" || method.eqStr "ping"

/-- Body of the dispatcher's `try` block at `/mcp` for a recognised
method (`server.py` lines 61-68). -/
def dispatchKnown (st : GatewayState) (method params : JVal) (elapsed_ms : Nat)
    (now : Int) : Except PyExc JVal × GatewayState :=
  if method.eqStr "initialize" then (.ok handleInitialize, st)
  else if method.eqStr "tools/list" then (.ok (handleListTools st), st)
  else if method.eqStr "tools/call" then handleCallTool st params elapsed_ms now
  else (.ok (.obj []), st)

/-- Body of the dispatcher's `try` block at `/mcp/{prefix}` for a
recognised method (`server.py` lines 111-118). -/
def dispatchKnownMount (st : GatewayState) (pfx : String) (method params : JVal)
    (elapsed_ms : Nat) (now : Int) : Except PyExc JVal × GatewayState :=
  if method.eqStr "initialize" then (.ok handleInitialize, st)
  else if method.eqStr "tools/list" then (.ok (handleListToolsForMount st pfx), st)
  else if method.eqStr "tools/call" then handleCallToolForMount st pfx params elapsed_ms now
  else (.ok (.obj []), st)

/-- `MCPGateway.handle_mcp_request` (`server.py` lines 42-90).
`body` is the decoded JSON request body (`none` when `request.json()`
raised, i.e. the body was undecodable).  Faithfully to the source,
`body.get("method", "")` is evaluated *outside* the `try`, so a body
that decodes to a non-object raises an uncaught `AttributeError`. -/
def handle_mcp_request (st : GatewayState) (body : Option JVal)
    (elapsed_ms : Nat) (now : Int) : DispatchOutcome × GatewayState :=
  match body with
  | none => (.resp 400 (jsonRpcError .null (-32700) "Parse error"), st)
  | some (.obj flds) =>
      let method := dictGetD flds "method" (.str "")
      let params := dictGetD flds "params" (.obj [])
      let rid := dictGetD flds "id" .null
      if knownMethod method then
        match dispatchKnown st method params elapsed_ms now with
        | (.ok r, st') => (.resp 200 (jsonRpcResult rid r), st')
        | (.error exc, st') =>
            (.resp 500 (jsonRpcError rid (-32603) exc.message), st')
      else
        (.resp 400 (jsonRpcError rid (-32601)
          ("Method not found: " ++ pyStr method)), st)
  | some other =>
      (.uncaught (.attributeError
        ("'" ++ pyTypeName other ++ "' object has no attribute 'get'")), st)

/-- `MCPGateway.handle_mount_request` (`server.py` lines 92-140): same
envelope handling as `/mcp`, with the mount-scoped handlers. -/
def handle_mount_request (st : GatewayState) (pfx : String) (body : Option JVal)
    (elapsed_ms : Nat) (now : Int) : DispatchOutcome × GatewayState :=
  match body with
  | none => (.resp 400 (jsonRpcError .null (-32700) "Parse error"), st)
  | some (.obj flds) =>
      let method := dictGetD flds "method" (.str "")
      let params := dictGetD flds "params" (.obj [])
      let rid := dictGetD flds "id" .null
      if knownMethod method then
        match dispatchKnownMount st pfx method params elapsed_ms now with
        | (.ok r, st') => (.resp 200 (jsonRpcResult rid r), st')
        | (.error exc, st') =>
            (.resp 500 (jsonRpcError rid (-32603) exc.message), st')
      else
        (.resp 400 (jsonRpcError rid (-32601)
          ("Method not found: " ++ pyStr method)), st)
  | some other =>
      (.uncaught (.attributeError
        ("'" ++ pyTypeName other ++ "' object has no attribute 'get'")), st)

-- ============================================================================
-- Statistics with percentiles (db/repository.py get_stats_with_percentiles)
-- ============================================================================

/-- Aggregate returned by `ToolCallRepository.get_stats_with_percentiles`
(`db/repository.py` lines 315-363). -/
structure StatsP where
  base : Stats
  p50_latency_ms : Option Int
  p95_latency_ms : Option Int
  p99_latency_ms : Option Int
  deriving BEq, DecidableEq, Repr

/-- `ToolCallRepository.get_stats_with_percentiles` applied to the
filtered row set: like `get_stats` but on the ascending-sorted latency
list, with nearest-rank percentiles (absent on the empty set). -/
def get_stats_with_percentiles (calls : List ToolCall) : StatsP :=
  if calls.isEmpty then
    { base := { total_calls := 0, success_count := 0, error_count := 0,
                success_rate := 0, avg_latency_ms := 0,
                min_latency_ms := 0, max_latency_ms := 0 }
      p50_latency_ms := none, p95_latency_ms := none, p99_latency_ms := none }
  else
    let success_count := (calls.filter (fun c => c.success)).length
    let latencies := (calls.map (fun c => c.latency_ms)).mergeSort
      (fun a b => decide (a ≤ b))
    { base :=
        { total_calls := calls.length
          success_count := success_count
          error_count := calls.length - success_count
          success_rate := (success_count : ℚ) / (calls.length : ℚ)
          avg_latency_ms := ((latencies.foldl (· + ·) 0 : Int) : ℚ) / (latencies.length : ℚ)
          min_latency_ms := listMinD latencies
          max_latency_ms := listMaxD latencies }
      p50_latency_ms := percentileOf latencies 50
      p95_latency_ms := percentileOf latencies 95
      p99_latency_ms := percentileOf latencies 99 }

-- ============================================================================
-- Claim C3 — nearest-rank percentile
-- ============================================================================

/-- C3: for every latency list of size N > 0 and percentile p, the
computed p-th percentile is the element at index `floor(N * p / 100)`
clamped to `N - 1` (the index is shown in bounds), and is absent when
N = 0 — both for `_percentile` itself and for the `p50`/`p95`/`p99`
fields of `get_stats_with_percentiles` on the empty set; in particular
for latencies `[10, 20, 30, 40, 50]`, p = 50 yields 30 and p = 95
yields 50. -/
theorem percentile_nearest_rank :
    (∀ (l : List Int) (p : Nat),
      (l = [] → percentileOf l p = none) ∧
      (l ≠ [] → ∃ h : min (l.length * p / 100) (l.length - 1) < l.length,
        percentileOf l p =
          some (l.get ⟨min (l.length * p / 100) (l.length - 1), h⟩))) ∧
    (get_stats_with_percentiles []).p50_latency_ms = none ∧
    (get_stats_with_percentiles []).p95_latency_ms = none ∧
    (get_stats_with_percentiles []).p99_latency_ms = none ∧
    percentileOf [10, 20, 30, 40, 50] 50 = some 30 ∧
    percentileOf [10, 20, 30, 40, 50] 95 = some 50 := by
  refine ⟨fun l p => ⟨?_, ?_⟩, rfl, rfl, rfl, by decide, by decide⟩
  · intro h
    subst h
    rfl
  · intro hne
    have hlen : 0 < l.length := List.length_pos.mpr hne
    have hidx : min (l.length * p / 100) (l.length - 1) < l.length :=
      lt_of_le_of_lt (min_le_right _ _) (Nat.sub_lt hlen (by norm_num))
    refine ⟨hidx, ?_⟩
    have hne' : l.isEmpty = false := by
      simp [List.isEmpty_iff, hne]
    simp only [percentileOf, hne', Bool.false_eq_true, if_false,
      List.getD_eq_getElem l 0 hidx, List.get_eq_getElem]

/-- Witness for C3 at the concrete list `[10, 20, 30, 40, 50]`, p = 95. -/
theorem percentile_nearest_rank_witness :
    ([10, 20, 30, 40, 50] : List Int) ≠ [] ∧
    ∃ h : min (([10, 20, 30, 40, 50] : List Int).length * 95 / 100)
        (([10, 20, 30, 40, 50] : List Int).length - 1) <
        ([10, 20, 30, 40, 50] : List Int).length,
      percentileOf [10, 20, 30, 40, 50] 95 =
        some (([10, 20, 30, 40, 50] : List Int).get
          ⟨min (([10, 20, 30, 40, 50] : List Int).length * 95 / 100)
            (([10, 20, 30, 40, 50] : List Int).length - 1), h⟩) :=
  ⟨by decide, (percentile_nearest_rank.1 [10, 20, 30, 40, 50] 95).2 (by decide)⟩

-- ============================================================================
-- Claim C8 — basic statistics and the success rate
-- ============================================================================

/-- A call record with the given outcome and latency, as the demo
backend `weather` would produce it. -/
def mkCall (success : Bool) (lat : Int) : ToolCall :=
  { backend_name := "weather"
    tool_name := "get_forecast"
    arguments := .obj []
    success := success
    error_message := if success then none else some "Connection refused"
    latency_ms := lat }

/-- C8: for every filtered call-record set, `get_stats` reports
`success_rate = success_count / total_calls` with the empty set mapped
to 0, `total_calls`/`success_count`/`error_count` counting the rows,
and average/min/max latency all zero on the empty set; with 3 successes
and 1 failure among 4 calls the success rate is exactly 0.75. -/
theorem get_stats_success_rate :
    (∀ calls : List ToolCall,
      (get_stats calls).total_calls = calls.length ∧
      (get_stats calls).success_count =
        (calls.filter (fun c => c.success)).length ∧
      (get_stats calls).error_count =
        calls.length - (calls.filter (fun c => c.success)).length ∧
      (get_stats calls).success_rate =
        (if calls.length = 0 then 0
         else ((calls.filter (fun c => c.success)).length : ℚ) / (calls.length : ℚ))) ∧
    (get_stats []).success_rate = 0 ∧
    (get_stats []).avg_latency_ms = 0 ∧
    (get_stats []).min_latency_ms = 0 ∧
    (get_stats []).max_latency_ms = 0 ∧
    (get_stats [mkCall true 100, mkCall true 110, mkCall true 120,
      mkCall false 50]).success_rate = 0.75 := by
  refine ⟨fun calls => ?_, rfl, rfl, rfl, rfl, by
    norm_num [get_stats, mkCall, List.filter]⟩
  cases calls with
  | nil => exact ⟨rfl, rfl, rfl, rfl⟩
  | cons c cs =>
      refine ⟨rfl, rfl, rfl, ?_⟩
      have : (c :: cs).length ≠ 0 := by simp
      simp [get_stats, this]

-- ============================================================================
-- Claim C9 — auto-granularity selection
-- ============================================================================

/-- C9 counterexample: the period token `"2d"` denotes two days — its
parsed cutoff is `2 * 24 * 60` minutes before now, well within the
claimed "at most 7 days selects hour granularity" band — yet the
auto-selected granularity is `"day"`, not `"hour"`: the code matches the
period token exactly against `("1h", "2h")` and `("24h", "7d")` instead
of comparing durations. -/
theorem auto_granularity_two_day_counterexample :
    autoGranularity none "2d" = "day" ∧
    autoGranularity none "2d" ≠ "hour" ∧
    parse_time_period 0 "2d" = .ok (some (-(2 * 24 * 60))) ∧
    (2 * 24 * 60 : Int) ≤ 7 * 24 * 60 := by
  refine ⟨rfl, by decide, rfl, by norm_num⟩

/-- C9 (amended): with no explicit granularity (or an empty one), the
granularity is selected by exact period-token membership — `"1h"` and
`"2h"` select minute, `"24h"` and `"7d"` select hour, and every other
token (any other duration, `"all"`, or malformed) selects day; a
supplied non-empty granularity is used unchanged. -/
theorem auto_granularity_exact_tokens :
    (∀ period : String,
      autoGranularity none period =
        (if period = "1h" ∨ period = "2h" then "minute"
         else if period = "24h" ∨ period = "7d" then "hour"
         else "day")) ∧
    (∀ period : String,
      autoGranularity (some "") period = autoGranularity none period) ∧
    (∀ (g period : String), g ≠ "" →
      autoGranularity (some g) period = g) := by
  refine ⟨fun period => rfl, fun period => rfl, fun g period hg => ?_⟩
  simp [autoGranularity, hg]

/-- Witness for C9 (amended) at granularity `"minute"`, period `"30d"`. -/
theorem auto_granularity_exact_tokens_witness :
    autoGranularity (some "minute") "30d" = "minute" :=
  auto_granularity_exact_tokens.2.2 "minute" "30d" (by decide)

-- ============================================================================
-- Claim C10 — malformed period tokens parse to "no cutoff"
-- ============================================================================

/-- C10: every non-empty period other than `"all"` that ends in none of
the suffixes `'h'`, `'d'`, `'m'` parses to "no cutoff" (`None`) without
raising — a malformed token is silently treated like `"all"`. -/
theorem parse_time_period_unknown_suffix :
    ∀ (now : Int) (period : String),
      period ≠ "" → period ≠ "all" →
      pyEndsWith period "h" = false →
      pyEndsWith period "d" = false →
      pyEndsWith period "m" = false →
      parse_time_period now period = .ok none := by
  intro now period h1 h2 h3 h4 h5
  simp [parse_time_period, h1, h2, h3, h4, h5]

/-- Witness for C10 at the malformed tokens `"30x"` and `"week"`. -/
theorem parse_time_period_unknown_suffix_witness :
    parse_time_period 0 "30x" = .ok none ∧
    parse_time_period 0 "week" = .ok none :=
  ⟨parse_time_period_unknown_suffix 0 "30x" (by decide) (by decide)
      (by decide) (by decide) (by decide),
    parse_time_period_unknown_suffix 0 "week" (by decide) (by decide)
      (by decide) (by decide) (by decide)⟩

-- ============================================================================
-- Claim C4 — atomic tool-catalog refresh
-- ============================================================================

/-- Every row inserted by a refresh belongs to the refreshed backend. -/
theorem refreshedTools_backend_id (backend : Backend) (tools : List ToolInfo)
    (now : Int) : ∀ (freshId : Nat), ∀ t ∈ refreshedTools backend tools now freshId,
      t.backend_id = backend.id := by
  induction tools with
  | nil => intro freshId t ht; cases ht
  | cons info rest ih =>
      intro freshId t ht
      cases ht with
      | head => rfl
      | tail _ h => exact ih (freshId + 1) t h

/-- C4: a tool refresh for a backend replaces that backend's tool rows
wholesale — afterwards the backend's rows are exactly the freshly
inserted ones (one per upstream-reported tool, named
`{effective_prefix}__{name}`), no pre-refresh row of the backend
survives, and other backends' rows are untouched. -/
theorem refresh_backend_tools_replaces_catalog :
    ∀ (st : GatewayState) (backend : Backend) (tools : List ToolInfo)
      (now : Int) (freshId : Nat),
      ((refresh_backend_tools st backend tools now freshId).tools.filter
          (fun t => t.backend_id == backend.id) =
        refreshedTools backend tools now freshId) ∧
      ((refreshedTools backend tools now freshId).map (fun t => t.prefixed_name) =
        tools.map (fun info => backend.effectivePfx ++ "__" ++ info.name)) ∧
      ((refresh_backend_tools st backend tools now freshId).tools.filter
          (fun t => !(t.backend_id == backend.id)) =
        st.tools.filter (fun t => !(t.backend_id == backend.id))) ∧
      (∀ t ∈ (refresh_backend_tools st backend tools now freshId).tools,
        t.backend_id = backend.id →
          t ∈ refreshedTools backend tools now freshId) := by
  intro st backend tools now freshId
  have hnew : ∀ t ∈ refreshedTools backend tools now freshId,
      (t.backend_id == backend.id) = true := by
    intro t ht
    exact beq_iff_eq.mpr (refreshedTools_backend_id backend tools now freshId t ht)
  have hpost : (refresh_backend_tools st backend tools now freshId).tools.filter
      (fun t => t.backend_id == backend.id) =
      refreshedTools backend tools now freshId := by
    simp only [refresh_backend_tools, List.filter_append, List.filter_filter]
    rw [List.filter_eq_self.mpr hnew]
    have : ∀ t : Tool,
        ((t.backend_id == backend.id) && !(t.backend_id == backend.id)) = false := by
      intro t
      cases h : (t.backend_id == backend.id) <;> simp [h]
    simp [this]
  refine ⟨hpost, ?_, ?_, ?_⟩
  · clear hnew hpost
    induction tools generalizing freshId with
    | nil => rfl
    | cons info rest ih => simp [refreshedTools, ih]
  · have hdup : (fun (t : Tool) =>
        (!(t.backend_id == backend.id)) && (!(t.backend_id == backend.id))) =
        (fun (t : Tool) => !(t.backend_id == backend.id)) := by
      funext t
      exact Bool.and_self _
    have hnil : (refreshedTools backend tools now freshId).filter
        (fun t => !(t.backend_id == backend.id)) = [] :=
      List.filter_eq_nil_iff.mpr (by intro t ht; simp [hnew t ht])
    simp only [refresh_backend_tools, List.filter_append, List.filter_filter]
    rw [hdup, hnil]
    simp
  · intro t ht hbid
    have : t ∈ (refresh_backend_tools st backend tools now freshId).tools.filter
        (fun t => t.backend_id == backend.id) :=
      List.mem_filter.mpr ⟨ht, beq_iff_eq.mpr hbid⟩
    rw [hpost] at this
    exact this

-- ============================================================================
-- Claim C6 — the mount tools/call is the aggregated tools/call re-prefixed
-- ============================================================================

/-- C6: a `tools/call` on the mount endpoint behaves identically —
same result, same errors, same appended call records — to a `tools/call`
on the aggregated endpoint whose tool name is `{prefix}__{name}`: the
mount handler merely reconstructs the prefixed name and invokes the same
routing path.  Stated for arbitrary object params and specialised to a
string-valued bare name. -/
theorem mount_call_is_reprefixed_aggregated_call :
    (∀ (st : GatewayState) (pfx : String) (flds : List (String × JVal))
        (elapsed_ms : Nat) (now : Int),
      handleCallToolForMount st pfx (.obj flds) elapsed_ms now =
        handleCallTool st (.obj
          [("name", .str (pfx ++ "__" ++ pyStr (dictGetD flds "name" (.str "")))),
           ("arguments", dictGetD flds "arguments" (.obj []))]) elapsed_ms now) ∧
    (∀ (st : GatewayState) (pfx name : String) (args : JVal)
        (elapsed_ms : Nat) (now : Int),
      handleCallToolForMount st pfx
          (.obj [("name", .str name), ("arguments", args)]) elapsed_ms now =
        handleCallTool st
          (.obj [("name", .str (pfx ++ "__" ++ name)), ("arguments", args)])
          elapsed_ms now) :=
  ⟨fun _ _ _ _ _ => rfl, fun _ _ _ _ _ _ => rfl⟩

-- ============================================================================
-- Claim C1 — pre-connection routing failures
-- ============================================================================

/-- C1: routing failures before any connection is used.  If the prefixed
name resolves to no catalog tool, `call_tool` fails with
`ToolNotFoundError` (hence never `BackendNotFoundError`); if the tool
resolves and its backend row exists but the registry holds no live
connection for it, `call_tool` fails with `BackendNotFoundError`; in
both cases the state — including the call-record table — is returned
unchanged: no `CallRecord` is appended. -/
theorem routing_pre_connection_failures :
    ∀ (st : GatewayState) (name arguments : JVal)
      (context : Option RequestContext) (elapsed_ms : Nat) (now : Int),
      (toolGetByPrefixedName st name = none →
        call_tool st name arguments context elapsed_ms now =
          (.error (.toolNotFound ("Tool " ++ pyStr name ++ " not found")), st) ∧
        (∀ m, (call_tool st name arguments context elapsed_ms now).1 ≠
          .error (.backendNotFound m)) ∧
        (call_tool st name arguments context elapsed_ms now).2.tool_calls =
          st.tool_calls) ∧
      (∀ (tool : Tool) (backend : Backend),
        toolGetByPrefixedName st name = some tool →
        backendGetById st tool.backend_id = some backend →
        lookupConnection st backend.name = none →
        call_tool st name arguments context elapsed_ms now =
          (.error (.backendNotFound
            ("Backend " ++ backend.name ++ " not connected")), st) ∧
        (call_tool st name arguments context elapsed_ms now).2.tool_calls =
          st.tool_calls) := by
  intro st name arguments context elapsed_ms now
  constructor
  · intro h
    have heq : call_tool st name arguments context elapsed_ms now =
        (.error (.toolNotFound ("Tool " ++ pyStr name ++ " not found")), st) := by
      simp [call_tool, h]
    refine ⟨heq, ?_, by rw [heq]⟩
    intro m hm
    rw [heq] at hm
    simp at hm
  · intro tool backend h1 h2 h3
    have heq : call_tool st name arguments context elapsed_ms now =
        (.error (.backendNotFound
          ("Backend " ++ backend.name ++ " not connected")), st) := by
      simp [call_tool, h1, h2, h3]
    exact ⟨heq, by rw [heq]⟩

/-- Demo state with an empty database and registry. -/
def emptyGatewayState : GatewayState :=
  { backends := [], tools := [], connections := [], tool_calls := [] }

/-- Demo backend `weather`. -/
def wBackend : Backend :=
  { id := 1, name := "weather" }

/-- Demo catalog row for `weather__get_forecast`. -/
def wTool : Tool :=
  { id := 10, backend_id := 1, name := "get_forecast",
    prefixed_name := "weather__get_forecast" }

/-- Demo state: catalog and backend row exist but no live connection. -/
def stNoConn : GatewayState :=
  { backends := [wBackend], tools := [wTool], connections := [],
    tool_calls := [] }

/-- Witness for C1: an unknown prefixed name on an empty catalog, and a
resolved tool whose backend has no live connection. -/
theorem routing_pre_connection_failures_witness :
    (call_tool emptyGatewayState (.str "weather__get_forecast") (.obj [])
        none 5 0 =
      (.error (.toolNotFound
        ("Tool " ++ pyStr (.str "weather__get_forecast") ++ " not found")),
        emptyGatewayState)) ∧
    (call_tool stNoConn (.str "weather__get_forecast") (.obj []) none 5 0 =
      (.error (.backendNotFound
        ("Backend " ++ wBackend.name ++ " not connected")), stNoConn)) :=
  ⟨((routing_pre_connection_failures emptyGatewayState
      (.str "weather__get_forecast") (.obj []) none 5 0).1 rfl).1,
    ((routing_pre_connection_failures stNoConn
      (.str "weather__get_forecast") (.obj []) none 5 0).2 wTool wBackend
      rfl rfl rfl).1⟩

-- ============================================================================
-- Claim C2 — the guaranteed-run record finalizer (code bug)
-- ============================================================================

/-- Demo connection whose upstream call succeeds with a raw result. -/
def okConn : BackendConnection :=
  ⟨fun _ _ => .ok (.str "sunny")⟩

/-- Demo connection whose upstream call raises (str(e) = "boom"). -/
def failConn : BackendConnection :=
  ⟨fun _ _ => .error "boom"⟩

/-- Demo state with a live connection whose calls succeed. -/
def stConnOk : GatewayState :=
  { backends := [wBackend], tools := [wTool],
    connections := [("weather", okConn)], tool_calls := [] }

/-- Demo state with a live connection whose calls fail upstream. -/
def stConnFail : GatewayState :=
  { backends := [wBackend], tools := [wTool],
    connections := [("weather", failConn)], tool_calls := [] }

/-- C2 (code bug): `ToolCallRepository.create` passes the
`client_ip`/`request_id`/`session_id`/`caller` keyword arguments, but the
`ToolCall` ORM model in `models.py` declares no such attributes, so
SQLAlchemy's constructor raises `TypeError` on **every** record creation.
Consequently a `call_tool` that reaches a live connection — on upstream
success and failure alike — ends with the finalizer's `TypeError`
replacing the result: **no** `CallRecord` is appended, the raw result is
lost, and the upstream error is never wrapped as `ToolCallError`,
contradicting the claim (and the repository's own tests and migration,
which expect the record to be written). -/
theorem call_record_finalizer_type_error :
    (∀ (data : ToolCallCreate) (tool_id : Option Nat) (now : Int),
      toolCallRepositoryCreate data tool_id now =
        .error (.typeError
          ("'" ++ "client_ip" ++ "' is an invalid keyword argument for ToolCall"))) ∧
    (call_tool stConnOk (.str "weather__get_forecast") (.obj []) none 5 0 =
      (.error (.typeError
        ("'" ++ "client_ip" ++ "' is an invalid keyword argument for ToolCall")),
        stConnOk)) ∧
    (call_tool stConnFail (.str "weather__get_forecast") (.obj []) none 5 0 =
      (.error (.typeError
        ("'" ++ "client_ip" ++ "' is an invalid keyword argument for ToolCall")),
        stConnFail)) ∧
    (call_tool stConnOk (.str "weather__get_forecast") (.obj [])
        none 5 0).2.tool_calls = [] ∧
    (call_tool stConnFail (.str "weather__get_forecast") (.obj [])
        none 5 0).2.tool_calls = [] :=
  ⟨fun _ _ _ => rfl, rfl, rfl, rfl, rfl⟩

-- ============================================================================
-- Claim C7 — mount tools/list resolution
-- ============================================================================

/-- Membership in the enabled-only backend listing. -/
theorem mem_backendListAll (st : GatewayState) (b : Backend) :
    b ∈ backendListAll st true ↔ b ∈ st.backends ∧ b.enabled = true := by
  simp [backendListAll, List.mem_mergeSort, List.mem_filter]

/-- C7: the mount `tools/list` for a prefix resolves a backend that is
enabled, mount-enabled and whose effective prefix equals the prefix.
When no backend of the state qualifies — in particular when the backend
exists but has `mount_enabled = false` or `enabled = false` — the result
is the empty tool list, not an error; when a unique backend qualifies,
the result is exactly its tools under their bare (unprefixed) names. -/
theorem mount_list_tools_resolution :
    ∀ (st : GatewayState) (pfx : String),
      ((∀ b ∈ st.backends,
          ¬(b.enabled = true ∧ b.mount_enabled = true ∧ b.effectivePfx = pfx)) →
        handleListToolsForMount st pfx = .obj [("tools", .arr [])]) ∧
      (∀ b ∈ st.backends,
        b.enabled = true → b.mount_enabled = true → b.effectivePfx = pfx →
        (∀ b' ∈ st.backends, b'.enabled = true → b'.mount_enabled = true →
          b'.effectivePfx = pfx → b' = b) →
        handleListToolsForMount st pfx =
          .obj [("tools", .arr ((toolListByBackend st b.id).map (fun t =>
            .obj [("name", .str t.name),
                  ("description", .str (pyOrEmpty t.description)),
                  ("inputSchema", t.input_schema)])))]) := by
  intro st pfx
  constructor
  · intro hnone
    have hfind : (backendListAll st true).find?
        (fun b => b.effectivePfx == pfx && b.mount_enabled) = none := by
      apply List.find?_eq_none.mpr
      intro b hb
      have hmem := (mem_backendListAll st b).mp hb
      intro hpred
      have hp : b.effectivePfx = pfx ∧ b.mount_enabled = true := by
        have := hpred
        simp at this
        exact this
      exact hnone b hmem.1 ⟨hmem.2, hp.2, hp.1⟩
    simp [handleListToolsForMount, hfind]
  · intro b hb hen hmount hpfx huniq
    cases hfind : (backendListAll st true).find?
        (fun b => b.effectivePfx == pfx && b.mount_enabled) with
    | none =>
        exfalso
        have := List.find?_eq_none.mp hfind b
          ((mem_backendListAll st b).mpr ⟨hb, hen⟩)
        apply this
        simp [hpfx, hmount]
    | some b' =>
        have hpred := List.find?_some hfind
        have hmem := (mem_backendListAll st b').mp
          (List.mem_of_find?_eq_some hfind)
        have hp : b'.effectivePfx = pfx ∧ b'.mount_enabled = true := by
          simp at hpred
          exact hpred
        have hbb : b' = b := huniq b' hmem.1 hmem.2 hp.2 hp.1
        subst hbb
        simp [handleListToolsForMount, hfind]

/-- Demo backend `files` with mounting disabled. -/
def filesBackendOff : Backend :=
  { id := 2, name := "files", mount_enabled := false }

/-- Demo state where the only backend matching prefix `files` is not
mount-enabled. -/
def stMountOff : GatewayState :=
  { backends := [filesBackendOff]
    tools := [{ id := 20, backend_id := 2, name := "read",
                prefixed_name := "files__read" }]
    connections := [], tool_calls := [] }

/-- Demo state with the mounted `weather` backend and its tool. -/
def stMounted : GatewayState :=
  { backends := [wBackend], tools := [wTool], connections := [],
    tool_calls := [] }

/-- Witness for C7: a mount-disabled backend yields the empty tool list,
and the mounted `weather` backend yields its tools under bare names. -/
theorem mount_list_tools_resolution_witness :
    (handleListToolsForMount stMountOff "files" = .obj [("tools", .arr [])]) ∧
    (handleListToolsForMount stMounted "weather" =
      .obj [("tools", .arr ((toolListByBackend stMounted wBackend.id).map (fun t =>
        .obj [("name", .str t.name),
              ("description", .str (pyOrEmpty t.description)),
              ("inputSchema", t.input_schema)])))]) :=
  ⟨(mount_list_tools_resolution stMountOff "files").1 (by
      intro b hb
      simp [stMountOff] at hb
      subst hb
      simp [filesBackendOff]),
    (mount_list_tools_resolution stMounted "weather").2 wBackend (by
        simp [stMounted])
      rfl rfl rfl (by
        intro b' hb' _ _ _
        simpa [stMounted] using hb')⟩

-- ============================================================================
-- Claim C5 — dispatcher error envelope
-- ============================================================================

/-- C5 (amended): on both dispatcher surfaces, an undecodable body yields
the JSON-RPC parse error `-32700` with HTTP 400; for a body that decodes
to a JSON **object**, an unrecognised method yields `-32601` carrying the
offending method name with HTTP 400, and any exception raised by the
dispatched handler below the dispatch boundary is caught and converted to
`-32603` carrying the exception's message with HTTP 500.  (A body that
decodes to a non-object value is *not* covered: there the envelope read
itself raises outside the `try`, see the counterexample.) -/
theorem dispatcher_error_envelope :
    ∀ (st : GatewayState) (elapsed_ms : Nat) (now : Int),
      (handle_mcp_request st none elapsed_ms now =
        (.resp 400 (jsonRpcError .null (-32700) "Parse error"), st)) ∧
      (∀ pfx, handle_mount_request st pfx none elapsed_ms now =
        (.resp 400 (jsonRpcError .null (-32700) "Parse error"), st)) ∧
      (∀ flds, knownMethod (dictGetD flds "method" (.str "")) = false →
        handle_mcp_request st (some (.obj flds)) elapsed_ms now =
          (.resp 400 (jsonRpcError (dictGetD flds "id" .null) (-32601)
            ("Method not found: " ++ pyStr (dictGetD flds "method" (.str "")))),
            st)) ∧
      (∀ pfx flds, knownMethod (dictGetD flds "method" (.str "")) = false →
        handle_mount_request st pfx (some (.obj flds)) elapsed_ms now =
          (.resp 400 (jsonRpcError (dictGetD flds "id" .null) (-32601)
            ("Method not found: " ++ pyStr (dictGetD flds "method" (.str "")))),
            st)) ∧
      (∀ flds exc st', knownMethod (dictGetD flds "method" (.str "")) = true →
        dispatchKnown st (dictGetD flds "method" (.str ""))
            (dictGetD flds "params" (.obj [])) elapsed_ms now =
          (.error exc, st') →
        handle_mcp_request st (some (.obj flds)) elapsed_ms now =
          (.resp 500 (jsonRpcError (dictGetD flds "id" .null) (-32603)
            exc.message), st')) ∧
      (∀ pfx flds exc st',
        knownMethod (dictGetD flds "method" (.str "")) = true →
        dispatchKnownMount st pfx (dictGetD flds "method" (.str ""))
            (dictGetD flds "params" (.obj [])) elapsed_ms now =
          (.error exc, st') →
        handle_mount_request st pfx (some (.obj flds)) elapsed_ms now =
          (.resp 500 (jsonRpcError (dictGetD flds "id" .null) (-32603)
            exc.message), st')) := by
  intro st elapsed_ms now
  refine ⟨rfl, fun pfx => rfl, ?_, ?_, ?_, ?_⟩
  · intro flds hunknown
    simp [handle_mcp_request, hunknown]
  · intro pfx flds hunknown
    simp [handle_mount_request, hunknown]
  · intro flds exc st' hknown hdisp
    simp [handle_mcp_request, hknown, hdisp]
  · intro pfx flds exc st' hknown hdisp
    simp [handle_mount_request, hknown, hdisp]

/-- C5 counterexample: a request body that decodes to the JSON array `[]`
is perfectly decodable, yet the dispatcher's `body.get("method", "")` —
evaluated *outside* its `try` block — raises `AttributeError`, which
escapes the dispatcher uncaught instead of being converted to a protocol
error: the claim's "no exception escapes the dispatcher uncaught" fails. -/
theorem dispatcher_nonobject_body_uncaught :
    handle_mcp_request emptyGatewayState (some (.arr [])) 0 0 =
      (.uncaught (.attributeError "'list' object has no attribute 'get'"),
        emptyGatewayState) := rfl

/-- Witness for C5: a `tools/call` for an unknown tool produces the
internal-error envelope (`-32603`, HTTP 500) carrying the routing
exception's message, and an unknown method produces `-32601` with the
method name (HTTP 400). -/
theorem dispatcher_error_envelope_witness :
    (handle_mcp_request emptyGatewayState
        (some (.obj [("method", .str "tools/call"),
          ("params", .obj [("name", .str "x__y")]), ("id", .num 1)])) 0 0 =
      (.resp 500 (jsonRpcError (.num 1) (-32603) "Tool x__y not found"),
        emptyGatewayState)) ∧
    (handle_mcp_request emptyGatewayState
        (some (.obj [("method", .str "resources/list"), ("id", .num 2)])) 0 0 =
      (.resp 400 (jsonRpcError (.num 2) (-32601)
        "Method not found: resources/list"), emptyGatewayState)) := by
  constructor
  · have h := (dispatcher_error_envelope emptyGatewayState 0 0).2.2.2.2.1
      [("method", .str "tools/call"), ("params", .obj [("name", .str "x__y")]),
        ("id", .num 1)]
      (.toolNotFound "Tool x__y not found") emptyGatewayState rfl rfl
    exact h
  · have h := (dispatcher_error_envelope emptyGatewayState 0 0).2.2.1
      [("method", .str "resources/list"), ("id", .num 2)] rfl
    exact h

/-- Witness for C4: refreshing `weather` with the single upstream tool
`lookup` leaves exactly the freshly inserted `weather__lookup` row for
that backend. -/
theorem refresh_backend_tools_replaces_catalog_witness :
    ({ id := 99, backend_id := 1, name := "lookup",
       prefixed_name := "weather__lookup", description := none,
       input_schema := .obj [], refreshed_at := (7 : Int) } : Tool) ∈
      refreshedTools wBackend [{ name := "lookup" }] 7 99 :=
  (refresh_backend_tools_replaces_catalog stMounted wBackend
      [{ name := "lookup" }] 7 99).2.2.2 _ (by exact .head _) rfl
